import Mathlib

/-!
Verification of the intent-extraction layer of the teller.ai banking chatbot:
a shallow embedding of `chatbot/core/llm/base.py` (response parsing and
intent/sentiment validation) and `chatbot/core/agent/agent.py` (backend
selection, initialization fallback, and the Agent-level error recovery),
together with theorems settling the specified behaviour.

Python strings are modelled as Lean `String`; Python exceptions are modelled
by `Except PyErr`; `json.loads` is modelled by an executable JSON parser
over the character list of the input, following the strict JSON grammar that
the Python `json` module accepts (objects, arrays, strings with escapes,
numbers without leading zeros, `true`/`false`/`null`, and the Python
extensions `NaN`/`Infinity`/`-Infinity`), skipping only space, tab, newline
and carriage return between tokens, and requiring that the whole input be
consumed.
-/

namespace Teller

/-! ### Python string primitives -/

/-- The characters Python `str.strip()` removes (ASCII whitespace). -/
def isPySpace (c : Char) : Bool :=
  c = ' ' || c = '\t' || c = '\n' || c = '\r' || c = '\x0b' || c = '\x0c'

/-- `str.strip()` on a character list: drop whitespace from both ends. -/
def pyStripList (cs : List Char) : List Char :=
  ((cs.dropWhile isPySpace).reverse.dropWhile isPySpace).reverse

/-- Python `str.strip()`. -/
def pyStrip (s : String) : String := String.mk (pyStripList s.data)

/-- Python `str.lower()` (ASCII model). -/
def pyLower (s : String) : String := String.mk (s.data.map Char.toLower)

/-- Python `str.upper()` (ASCII model). -/
def pyUpper (s : String) : String := String.mk (s.data.map Char.toUpper)

/-- Split a character list at every occurrence of `sep`, keeping empty
pieces, as Python `str.split(sep)` does. The result is always nonempty. -/
def splitChar (sep : Char) : List Char → List (List Char)
  | [] => [[]]
  | c :: cs =>
    match splitChar sep cs with
    | [] => [[]]
    | h :: t => if c = sep then [] :: h :: t else (c :: h) :: t

/-- Interleave `sep` between the pieces, as Python `sep.join` does. -/
def joinSep (sep : Char) : List (List Char) → List Char
  | [] => []
  | [x] => x
  | x :: y :: t => x ++ sep :: joinSep sep (y :: t)

/-- Python `str.split("\n")`. -/
def pySplitNL (s : String) : List String := (splitChar '\x0a' s.data).map String.mk

/-- Python `"\n".join(xs)`. -/
def pyJoinNL (xs : List String) : String := String.mk (joinSep '\x0a' (xs.map String.data))

/-! ### JSON values and Python `dict` operations -/

/-- A decoded JSON value, as produced by Python `json.loads`. Numbers keep
their source lexeme (no claim inspects numeric values). -/
inductive Json where
  | null
  | bool (b : Bool)
  | num (lit : String)
  | str (s : String)
  | arr (elems : List Json)
  | obj (members : List (String × Json))

/-- Python `dict` insertion: an existing key keeps its position and gets the
new value (as happens for duplicate keys in a JSON object); a new key is
appended. -/
def dictInsert (kvs : List (String × Json)) (k : String) (v : Json) :
    List (String × Json) :=
  if kvs.any (fun p => p.1 = k) then
    kvs.map (fun p => if p.1 = k then (k, v) else p)
  else kvs ++ [(k, v)]

/-- Python `dict.get(k, default)`. -/
def dictGet (kvs : List (String × Json)) (k : String) (default : Json) : Json :=
  match kvs.find? (fun p => p.1 = k) with
  | some p => p.2
  | none => default

/-! ### The `json.loads` model -/

/-- JSON inter-token whitespace (`json.decoder` skips exactly these). -/
def isJsonWs (c : Char) : Bool := c = ' ' || c = '\t' || c = '\n' || c = '\r'

/-- Skip inter-token whitespace. -/
def skipJsonWs : List Char → List Char
  | c :: cs => if isJsonWs c then skipJsonWs cs else c :: cs
  | [] => []

/-- Decimal digit test. -/
def isDigitCh (c : Char) : Bool := '0' ≤ c && c ≤ '9'

/-- Longest digit run at the front of the input. -/
def takeDigits : List Char → List Char × List Char
  | c :: cs =>
    if isDigitCh c then
      let (ds, r) := takeDigits cs
      (c :: ds, r)
    else ([], c :: cs)
  | [] => ([], [])

/-- Hexadecimal digit value (codepoint arithmetic: 0-9, a-f, A-F). -/
def hexDigit (c : Char) : Option Nat :=
  let n := c.toNat
  if 48 ≤ n && n ≤ 57 then some (n - 48)
  else if 97 ≤ n && n ≤ 102 then some (n - 87)
  else if 65 ≤ n && n ≤ 70 then some (n - 55)
  else none

/-- Single-character escapes accepted after a backslash in a JSON string. -/
def jsonEscape (c : Char) : Option Char :=
  match c with
  | '"' => some '"'
  | '\\' => some '\\'
  | '/' => some '/'
  | 'b' => some '\x08'
  | 'f' => some '\x0c'
  | 'n' => some '\n'
  | 'r' => some '\r'
  | 't' => some '\t'
  | _ => none

/-- Body of a JSON string after the opening quote; strict mode rejects raw
control characters, as Python does by default. -/
def scanString (acc : List Char) : List Char → Option (String × List Char)
  | '"' :: rest => some (String.mk acc.reverse, rest)
  | '\\' :: 'u' :: a :: b :: c :: d :: rest =>
    (match (hexDigit a, hexDigit b, hexDigit c, hexDigit d) with
     | (some va, some vb, some vc, some vd) =>
       scanString (Char.ofNat (((va * 16 + vb) * 16 + vc) * 16 + vd) :: acc) rest
     | _ => none)
  | '\\' :: e :: rest =>
    (match jsonEscape e with
     | some ch => scanString (ch :: acc) rest
     | none => none)
  | c :: rest => if c.toNat < 32 then none else scanString (c :: acc) rest
  | [] => none

/-- A JSON number lexeme: `-? (0 | [1-9][0-9]*) (. [0-9]+)? ([eE][+-]?[0-9]+)?`,
returned together with the unconsumed input; `none` when no digit follows the
optional sign. -/
def scanNumber (cs : List Char) : Option (List Char × List Char) :=
  let (sgn, cs1) : List Char × List Char :=
    match cs with
    | '-' :: r => (['-'], r)
    | _ => ([], cs)
  match cs1 with
  | '0' :: r => some (sgn ++ ['0'], r)
  | c :: r =>
    if isDigitCh c then
      let (ds, r2) := takeDigits r
      some (sgn ++ c :: ds, r2)
    else none
  | [] => none

/-- Optional fraction part `.[0-9]+`; consumes nothing if absent. -/
def scanFrac (cs : List Char) : List Char × List Char :=
  match cs with
  | '.' :: r =>
    (match takeDigits r with
     | ([], _) => ([], cs)
     | (ds, r2) => ('.' :: ds, r2))
  | _ => ([], cs)

/-- Optional exponent part `[eE][+-]?[0-9]+`; consumes nothing if absent. -/
def scanExp (cs : List Char) : List Char × List Char :=
  match cs with
  | e :: r =>
    if e = 'e' || e = 'E' then
      let (sgn, r1) : List Char × List Char :=
        match r with
        | '+' :: r2 => (['+'], r2)
        | '-' :: r2 => (['-'], r2)
        | _ => ([], r)
      match takeDigits r1 with
      | ([], _) => ([], cs)
      | (ds, r2) => (e :: sgn ++ ds, r2)
    else ([], cs)
  | [] => ([], cs)

mutual

/-- One JSON value starting at the (whitespace-skipped) front of the input. -/
def parseVal (fuel : Nat) (cs : List Char) : Option (Json × List Char) :=
  match fuel with
  | 0 => none
  | fuel + 1 =>
    match skipJsonWs cs with
    | 'n' :: 'u' :: 'l' :: 'l' :: r => some (.null, r)
    | 't' :: 'r' :: 'u' :: 'e' :: r => some (.bool true, r)
    | 'f' :: 'a' :: 'l' :: 's' :: 'e' :: r => some (.bool false, r)
    | 'N' :: 'a' :: 'N' :: r => some (.num "NaN", r)
    | 'I' :: 'n' :: 'f' :: 'i' :: 'n' :: 'i' :: 't' :: 'y' :: r =>
      some (.num "Infinity", r)
    | '-' :: 'I' :: 'n' :: 'f' :: 'i' :: 'n' :: 'i' :: 't' :: 'y' :: r =>
      some (.num "-Infinity", r)
    | '"' :: r =>
      (match scanString [] r with
       | some (s, r2) => some (.str s, r2)
       | none => none)
    | '\x5b' :: r =>
      (match skipJsonWs r with
       | '\x5d' :: r2 => some (.arr [], r2)
       | r2 =>
         match parseElems fuel r2 with
         | some (es, r3) => some (.arr es, r3)
         | none => none)
    | '\x7b' :: r =>
      (match skipJsonWs r with
       | '\x7d' :: r2 => some (.obj [], r2)
       | r2 =>
         match parseMembers fuel r2 with
         | some (ms, r3) =>
           some (.obj (ms.foldl (fun d kv => dictInsert d kv.1 kv.2) []), r3)
         | none => none)
    | c :: rest =>
      if c = '-' || isDigitCh c then
        match scanNumber (c :: rest) with
        | some (intPart, r1) =>
          let (fracPart, r2) := scanFrac r1
          let (expPart, r3) := scanExp r2
          some (.num (String.mk (intPart ++ fracPart ++ expPart)), r3)
        | none => none
      else none
    | [] => none

/-- One-or-more comma-separated array elements, up to the closing bracket. -/
def parseElems (fuel : Nat) (cs : List Char) : Option (List Json × List Char) :=
  match fuel with
  | 0 => none
  | fuel + 1 =>
    match parseVal fuel cs with
    | none => none
    | some (v, r) =>
      match skipJsonWs r with
      | ',' :: r2 =>
        (match parseElems fuel r2 with
         | some (vs, r3) => some (v :: vs, r3)
         | none => none)
      | '\x5d' :: r2 => some ([v], r2)
      | _ => none

/-- One-or-more comma-separated object members, up to the closing brace. -/
def parseMembers (fuel : Nat) (cs : List Char) :
    Option (List (String × Json) × List Char) :=
  match fuel with
  | 0 => none
  | fuel + 1 =>
    match skipJsonWs cs with
    | '"' :: r =>
      (match scanString [] r with
       | none => none
       | some (key, r1) =>
         match skipJsonWs r1 with
         | ':' :: r2 =>
           (match parseVal fuel r2 with
            | none => none
            | some (v, r3) =>
              match skipJsonWs r3 with
              | ',' :: r4 =>
                (match parseMembers fuel r4 with
                 | some (ms, r5) => some ((key, v) :: ms, r5)
                 | none => none)
              | '\x7d' :: r4 => some ([(key, v)], r4)
              | _ => none)
         | _ => none)
    | _ => none

end

/-- The model of Python `json.loads`: one JSON document, with only
whitespace allowed before and after it; `none` models `JSONDecodeError`. -/
def json_loads (s : String) : Option Json :=
  match parseVal (2 * s.data.length + 2) s.data with
  | some (j, rest) => if skipJsonWs rest = [] then some j else none
  | none => none

/-! ### `chatbot/core/llm/base.py`: vocabularies, validation, parsing -/

/-- `BaseLLM.VALID_INTENTS`. -/
def VALID_INTENTS : List String :=
  ["account_balance", "transaction_history", "transfer_money",
   "card_issues", "loan_inquiry", "general_inquiry"]

/-- `BaseLLM.VALID_SENTIMENTS`. -/
def VALID_SENTIMENTS : List String := ["POSITIVE", "NEGATIVE", "NEUTRAL"]

/-- `BaseLLM._validate_intent`: lower-case and strip the token, then replace
anything outside the vocabulary by `general_inquiry`. -/
def validate_intent (intent : String) : String :=
  let i := pyStrip (pyLower intent)
  if i ∈ VALID_INTENTS then i else "general_inquiry"

/-- `BaseLLM._validate_sentiment`: upper-case and strip the token, then
replace anything outside the vocabulary by `NEUTRAL`. -/
def validate_sentiment (sentiment : String) : String :=
  let s := pyStrip (pyUpper sentiment)
  if s ∈ VALID_SENTIMENTS then s else "NEUTRAL"

/-- The Python exceptions `_parse_intent_response` can meet. Its `except`
clause catches `json.JSONDecodeError` and `ValueError` only; an
`AttributeError` (from calling a `str` method on a non-string JSON value)
propagates. -/
inductive PyErr where
  | jsonDecodeError (msg : String)
  | valueError (msg : String)
  | attributeError (msg : String)
deriving DecidableEq

/-- `BaseLLM._parse_intent_response`. The `try` block decodes the raw text as
JSON, validates the `intent` field, and strips the `response` field, raising
`ValueError` when the response is empty; the `except` clause (catching only
`JSONDecodeError` and `ValueError`) splits the stripped raw text into lines
and, given at least two, validates the first as the intent and returns the
rest joined and stripped, raising `ValueError` otherwise. An `Except.error`
result models an exception escaping to the caller. -/
def parse_intent_response (raw : String) : Except PyErr (String × String) :=
  let attempt : Except PyErr (String × String) :=
    match json_loads raw with
    | none => .error (.jsonDecodeError "Expecting value")
    | some (.obj kvs) =>
      (match dictGet kvs "intent" (.str "unknown") with
       | .str i =>
         let intent := validate_intent i
         (match dictGet kvs "response" (.str "") with
          | .str r =>
            let response := pyStrip r
            if response = "" then .error (.valueError "Empty response")
            else .ok (intent, response)
          | _ => .error (.attributeError "strip"))
       | _ => .error (.attributeError "lower"))
    | some _ => .error (.attributeError "get")
  match attempt with
  | .ok p => .ok p
  | .error (.attributeError m) => .error (.attributeError m)
  | .error _ =>
    match pySplitNL (pyStrip raw) with
    | l0 :: l1 :: rest =>
      let intent := validate_intent (pyStrip l0)
      let response := pyStrip (pyJoinNL (l1 :: rest))
      if response = "" then .error (.valueError "Empty response")
      else .ok (intent, response)
    | _ => .error (.valueError "Invalid response format")

/-- The pair returned by `BaseLLM._handle_error`. -/
def handle_error_pair : String × String :=
  ("error",
   "I apologize, but I\x27m having trouble processing your request. Please try again.")

/-! ### The concrete backends (`mistral.py` / `gpt.py` / `tinyllama.py`) -/

/-- The instruction template each backend wraps around the user query. -/
def intent_prompt (query : String) : String :=
  "You are a banking assistant. Analyze the following query and respond in JSON format:\n\x7b\n    \"intent\": \"one of: account_balance, transaction_history, transfer_money, card_issues, loan_inquiry, general_inquiry\",\n    \"response\": \"your helpful response\"\n\x7d\n\nQuery: " ++ query ++ "\n\nResponse:"

/-- The classification prompt each backend wraps around the text. -/
def sentiment_prompt (text : String) : String :=
  "Analyze the sentiment of this banking customer service response. Return ONLY one of these words:\n- POSITIVE\n- NEGATIVE\n- NEUTRAL\n\nResponse: \"" ++ text ++ "\"\n"

/-- The backend method `get_intent_and_response`: invoke the completion engine on
the intent prompt, parse the raw completion, and convert any exception —
from the engine or from the parser — into the fixed pair of `_handle_error`. -/
def backend_get_intent_and_response (complete : String → Except PyErr String)
    (query : String) : String × String :=
  match complete (intent_prompt query) with
  | .error _ => handle_error_pair
  | .ok raw =>
    match parse_intent_response raw with
    | .ok p => p
    | .error _ => handle_error_pair

/-- The backend method `analyze_sentiment`: invoke the completion engine on the
classification prompt, strip and validate the result, and convert any
exception into `"NEUTRAL"`. -/
def backend_analyze_sentiment (complete : String → Except PyErr String)
    (text : String) : String :=
  match complete (sentiment_prompt text) with
  | .ok r => validate_sentiment (pyStrip r)
  | .error _ => "NEUTRAL"

/-! ### `chatbot/core/agent/agent.py`: backend selection and the Agent -/

/-- The `LLM` enum. -/
inductive LLM where
  | MISTRAL
  | GPT
  | TINYLLAMA
deriving DecidableEq

/-- `LLM.value`. -/
def LLM.value : LLM → String
  | .MISTRAL => "mistral"
  | .GPT => "gpt"
  | .TINYLLAMA => "tinyllama"

/-- Enum members in declaration order (Python iteration order). -/
def LLM.all : List LLM := [.MISTRAL, .GPT, .TINYLLAMA]

/-- `LLM.get_values`. -/
def LLM.get_values : List String := LLM.all.map LLM.value

/-- `LLM.from_name`: the first member whose value matches the name
case-insensitively, defaulting to `MISTRAL` when the search is exhausted. -/
def LLM.from_name (name : String) : LLM :=
  match LLM.all.find? (fun l => pyLower l.value = pyLower name) with
  | some l => l
  | none => .MISTRAL

/-- Outcome of `Agent._initialize_model` (modelled as `init_model`). -/
inductive InitResult where
  | ok (active : LLM)
  | noAgent (active : LLM)
  | raised
deriving DecidableEq

/-- `Agent._initialize_model`, over the requested identity, the set of
identities present in the process-wide model cache, and a constructor oracle
saying which identities construct successfully. Mirrors the source: use the
cached model for the requested identity if present; otherwise construct it;
on failure fall back to the first cached identity in declaration order; with
nothing cached, fall back to constructing the default `MISTRAL` — but only
when the requested identity is not already `MISTRAL` (in which case the
method returns with no agent set), and letting a failure of that default
construction propagate (`raised`). The `active` field is `self.model`
afterwards. -/
def init_model (requested : LLM) (cache : List LLM) (construct : LLM → Bool) :
    InitResult :=
  if requested ∈ cache then .ok requested
  else if construct requested then .ok requested
  else
    match LLM.all.filter (fun l => l ∈ cache) with
    | m :: _ => .ok m
    | [] =>
      if requested ≠ .MISTRAL then
        if construct .MISTRAL then .ok .MISTRAL else .raised
      else .noAgent requested

/-- `Agent.get_intent_and_response`: delegate to the owned backend and
convert any exception into the fixed error pair. -/
def Agent.get_intent_and_response
    (agentCall : String → Except PyErr (String × String)) (query : String) :
    String × String :=
  match agentCall query with
  | .ok p => p
  | .error _ => handle_error_pair

/-- `Agent.analyze_sentiment`: delegate to the owned backend and convert any
exception into `"NEUTRAL"`. -/
def Agent.analyze_sentiment (agentCall : String → Except PyErr String)
    (text : String) : String :=
  match agentCall text with
  | .ok s => s
  | .error _ => "NEUTRAL"

/-! ### Helper lemmas -/

/-- Whatever the token, `_validate_intent` lands in the vocabulary. -/
theorem validate_intent_mem (s : String) : validate_intent s ∈ VALID_INTENTS := by
  unfold validate_intent
  by_cases h : pyStrip (pyLower s) ∈ VALID_INTENTS
  · rw [if_pos h]; exact h
  · rw [if_neg h]; decide

/-- A vocabulary member passes `_validate_intent` unchanged. -/
theorem validate_intent_of_mem (I : String) (h : I ∈ VALID_INTENTS) :
    validate_intent I = I := by
  fin_cases h <;> rfl

/-- Whatever the token, `_validate_sentiment` lands in the vocabulary. -/
theorem validate_sentiment_mem (s : String) :
    validate_sentiment s ∈ VALID_SENTIMENTS := by
  unfold validate_sentiment
  by_cases h : pyStrip (pyUpper s) ∈ VALID_SENTIMENTS
  · rw [if_pos h]; exact h
  · rw [if_neg h]; decide

/-- The underlying character list of a packed string. -/
theorem data_mk (l : List Char) : (String.mk l).data = l := rfl

/-- Packing then unpacking a list of lines is the identity. -/
theorem map_data_mk (xs : List (List Char)) :
    (xs.map String.mk).map String.data = xs := by
  induction xs with
  | nil => rfl
  | cons x xs ih => simp only [List.map_cons, data_mk, ih]

/-- `splitChar` always produces at least one piece. -/
theorem splitChar_ne_nil (sep : Char) (cs : List Char) : splitChar sep cs ≠ [] := by
  induction cs with
  | nil => simp [splitChar]
  | cons c cs ih =>
    cases h : splitChar sep cs with
    | nil => exact absurd h ih
    | cons a t =>
      simp only [splitChar, h]
      split <;> simp

/-- Joining the pieces of a split restores the original list. -/
theorem joinSep_splitChar (sep : Char) (cs : List Char) :
    joinSep sep (splitChar sep cs) = cs := by
  induction cs with
  | nil => rfl
  | cons c cs ih =>
    cases h : splitChar sep cs with
    | nil => exact absurd h (splitChar_ne_nil sep cs)
    | cons a t =>
      rw [h] at ih
      simp only [splitChar, h]
      by_cases hc : c = sep
      · subst hc
        simpa [joinSep] using ih
      · rw [if_neg hc]
        cases t with
        | nil => simpa [joinSep] using ih
        | cons b t2 => simpa [joinSep] using ih

/-- The stripped form of a list is empty or ends in a non-whitespace
character. -/
theorem pyStripList_last (cs : List Char) :
    pyStripList cs = [] ∨
      ∃ ys c, pyStripList cs = ys ++ [c] ∧ isPySpace c = false := by
  unfold pyStripList
  cases h : (cs.dropWhile isPySpace).reverse.dropWhile isPySpace with
  | nil => left; rfl
  | cons a t =>
    right
    refine ⟨t.reverse, a, by simp, ?_⟩
    have hh := List.head?_dropWhile_not isPySpace (cs.dropWhile isPySpace).reverse
    rw [h] at hh
    simpa using hh

/-- Stripping a list that ends in a non-whitespace character only drops the
leading whitespace. -/
theorem pyStripList_concat (ys : List Char) (c : Char) (hc : isPySpace c = false) :
    pyStripList (ys ++ [c]) = ys.dropWhile isPySpace ++ [c] := by
  unfold pyStripList
  rw [List.dropWhile_append]
  by_cases h : (ys.dropWhile isPySpace).isEmpty
  · rw [if_pos h]
    rw [List.isEmpty_iff] at h
    rw [h]
    simp [List.dropWhile, hc]
  · rw [if_neg h]
    rw [List.reverse_append]
    simp [List.dropWhile, hc]

/-- Core of the line-based fallback: when the stripped raw text splits into
at least two lines, the joined remainder still strips to something
non-empty (the final non-whitespace character of the stripped text lives in
the last line). Hence the `Empty response` branch of the fallback is
unreachable. -/
theorem stripped_tail_ne_nil (cs : List Char) (a b : List Char) (t : List (List Char))
    (h : splitChar '\x0a' (pyStripList cs) = a :: b :: t) :
    pyStripList (joinSep '\x0a' (b :: t)) ≠ [] := by
  have hjoin : joinSep '\x0a' (a :: b :: t) = pyStripList cs := by
    rw [← h, joinSep_splitChar]
  have hseq : pyStripList cs = a ++ '\x0a' :: joinSep '\x0a' (b :: t) := by
    rw [← hjoin]; rfl
  rcases pyStripList_last cs with h0 | ⟨ys, c, hy, hc⟩
  · rw [h0] at hseq
    exact absurd hseq.symm (by simp)
  · have hlast : (pyStripList cs).getLast? = some c := by
      rw [hy]; exact List.getLast?_concat ys
    have hlast2 : (pyStripList cs).getLast? =
        ('\x0a' :: joinSep '\x0a' (b :: t)).getLast? := by
      rw [hseq]; exact List.getLast?_append_of_ne_nil a (by simp)
    rcases List.eq_nil_or_concat (joinSep '\x0a' (b :: t)) with hJ | ⟨zs, d, hzd⟩
    · rw [hJ, hlast] at hlast2
      simp only [List.getLast?_singleton, Option.some.injEq] at hlast2
      rw [hlast2] at hc
      exact absurd hc (by decide)
    · rw [List.concat_eq_append] at hzd
      rw [hzd, hlast] at hlast2
      have hd : ('\x0a' :: (zs ++ [d])).getLast? = some d := by
        rw [show '\x0a' :: (zs ++ [d]) = ('\x0a' :: zs) ++ [d] by rfl]
        exact List.getLast?_concat _
      rw [hd, Option.some.injEq] at hlast2
      rw [hzd, ← hlast2, pyStripList_concat zs c hc]
      simp

/-! ### Claim theorems -/

/-- Claim C3: whenever the backend call owned by the Agent raises any
exception, `Agent.get_intent_and_response` returns exactly the pair
the fixed error pair of `_handle_error` and does not propagate the exception. -/
theorem agent_intent_error_fallback
    (agentCall : String → Except PyErr (String × String)) (query : String)
    (e : PyErr) (h : agentCall query = .error e) :
    Agent.get_intent_and_response agentCall query =
      ("error",
       "I apologize, but I\x27m having trouble processing your request. Please try again.") := by
  unfold Agent.get_intent_and_response
  rw [h]
  rfl

/-- Witness for C3 at a concrete failing backend call. -/
theorem agent_intent_error_fallback_witness :
    Agent.get_intent_and_response (fun _ => .error (.valueError "boom")) "hi" =
      ("error",
       "I apologize, but I\x27m having trouble processing your request. Please try again.") :=
  agent_intent_error_fallback (fun _ => .error (.valueError "boom")) "hi"
    (.valueError "boom") rfl

/-- Claim C8: sentiment classification always lands in the three-value
vocabulary, both at the backend and through the Agent; a raising invocation
yields `NEUTRAL`; and validation accepts exactly the upper-cased, stripped
form of the token (case-insensitive after trimming). -/
theorem sentiment_always_valid :
    (∀ (complete : String → Except PyErr String) (text : String),
        backend_analyze_sentiment complete text ∈ VALID_SENTIMENTS) ∧
    (∀ (complete : String → Except PyErr String) (text : String),
        Agent.analyze_sentiment
          (fun t => .ok (backend_analyze_sentiment complete t)) text
          ∈ VALID_SENTIMENTS) ∧
    (∀ (agentCall : String → Except PyErr String) (text : String) (e : PyErr),
        agentCall text = .error e →
        Agent.analyze_sentiment agentCall text = "NEUTRAL") ∧
    (∀ s : String, pyStrip (pyUpper s) ∈ VALID_SENTIMENTS →
        validate_sentiment s = pyStrip (pyUpper s)) := by
  refine ⟨?_, ?_, ?_, ?_⟩
  · intro complete text
    unfold backend_analyze_sentiment
    cases h : complete (sentiment_prompt text) with
    | ok r => exact validate_sentiment_mem (pyStrip r)
    | error e =>
      show ("NEUTRAL" : String) ∈ VALID_SENTIMENTS
      decide
  · intro complete text
    show backend_analyze_sentiment complete text ∈ VALID_SENTIMENTS
    unfold backend_analyze_sentiment
    cases h : complete (sentiment_prompt text) with
    | ok r => exact validate_sentiment_mem (pyStrip r)
    | error e =>
      show ("NEUTRAL" : String) ∈ VALID_SENTIMENTS
      decide
  · intro agentCall text e h
    unfold Agent.analyze_sentiment
    rw [h]
  · intro s h
    unfold validate_sentiment
    rw [if_pos h]

/-- Witness for C8: a raising invocation yields `NEUTRAL`, and a padded
mixed-case token is normalized. -/
theorem sentiment_always_valid_witness :
    Agent.analyze_sentiment (fun _ => .error (.valueError "boom")) "hi" = "NEUTRAL" ∧
    validate_sentiment " positive " = "POSITIVE" := by
  constructor
  · exact sentiment_always_valid.2.2.1 (fun _ => .error (.valueError "boom")) "hi"
      (.valueError "boom") rfl
  · have h := sentiment_always_valid.2.2.2 " positive " (by decide)
    rw [h]
    rfl

/-- Claim C9: `LLM.from_name` resolves every name to exactly one identity: a
case-insensitive match to a known identity returns that identity, and every
unrecognized name returns `MISTRAL`. -/
theorem from_name_total_resolution (name : String) :
    (∀ l : LLM, pyLower name = l.value → LLM.from_name name = l) ∧
    (pyLower name ∉ LLM.get_values → LLM.from_name name = .MISTRAL) := by
  constructor
  · intro l h
    cases l <;> simp only [LLM.from_name, LLM.all, LLM.value, h] <;> decide
  · intro h
    have h1 : pyLower name ≠ "mistral" := fun hx => h (by rw [hx]; decide)
    have h2 : pyLower name ≠ "gpt" := fun hx => h (by rw [hx]; decide)
    have h3 : pyLower name ≠ "tinyllama" := fun hx => h (by rw [hx]; decide)
    have e1 : pyLower "mistral" = "mistral" := rfl
    have e2 : pyLower "gpt" = "gpt" := rfl
    have e3 : pyLower "tinyllama" = "tinyllama" := rfl
    have b1 : decide (pyLower "mistral" = pyLower name) = false :=
      decide_eq_false fun hx => h1 (hx.symm.trans e1)
    have b2 : decide (pyLower "gpt" = pyLower name) = false :=
      decide_eq_false fun hx => h2 (hx.symm.trans e2)
    have b3 : decide (pyLower "tinyllama" = pyLower name) = false :=
      decide_eq_false fun hx => h3 (hx.symm.trans e3)
    simp only [LLM.from_name, LLM.all, LLM.value, List.find?, b1, b2, b3]

/-- Witness for C9: a case-insensitive hit resolves to that identity, an
unknown name to the default. -/
theorem from_name_total_resolution_witness :
    LLM.from_name "GPT" = .GPT ∧ LLM.from_name "anthropic" = .MISTRAL := by
  constructor
  · exact (from_name_total_resolution "GPT").1 .GPT (by decide)
  · exact (from_name_total_resolution "anthropic").2 (by decide)

/-- Claim C10: `_validate_intent` always lands in the six-element vocabulary
`VALID_INTENTS`; the reserved tokens `unknown` and `error` are not in it, so
both normalize to `general_inquiry`. -/
theorem validate_intent_closed_vocabulary :
    (∀ s : String, validate_intent s ∈ VALID_INTENTS) ∧
    "unknown" ∉ VALID_INTENTS ∧
    "error" ∉ VALID_INTENTS ∧
    validate_intent "unknown" = "general_inquiry" ∧
    validate_intent "error" = "general_inquiry" ∧
    VALID_INTENTS.length = 6 ∧
    VALID_INTENTS.Nodup :=
  ⟨validate_intent_mem, by decide, by decide, by decide, by decide, by decide, by decide⟩

/-- Claim C7 (amended): when nothing is cached, a failed construction of a
non-default identity falls back to constructing the default `MISTRAL`
exactly once — a failure of that single fallback propagates, with no further
chain — and the reported active identity is then the default; when the
requested identity already is the default, its construction failure leaves
the Engine with no agent at all. -/
theorem init_model_empty_cache_default :
    (∀ (req : LLM) (construct : LLM → Bool), req ≠ .MISTRAL →
        construct req = false → construct .MISTRAL = true →
        init_model req [] construct = .ok .MISTRAL) ∧
    (∀ (req : LLM) (construct : LLM → Bool), req ≠ .MISTRAL →
        construct req = false → construct .MISTRAL = false →
        init_model req [] construct = .raised) ∧
    (∀ construct : LLM → Bool, construct .MISTRAL = false →
        init_model .MISTRAL [] construct = .noAgent .MISTRAL) := by
  refine ⟨?_, ?_, ?_⟩
  · intro req construct hne hf hM
    simp [init_model, LLM.all, hne, hf, hM]
  · intro req construct hne hf hM
    simp [init_model, LLM.all, hne, hf, hM]
  · intro construct hM
    simp [init_model, LLM.all, hM]

/-- Witness for C7: requesting GPT with an empty cache and a constructor
that only succeeds for Mistral lands on the default identity. -/
theorem init_model_empty_cache_default_witness :
    init_model .GPT [] (fun l => l = .MISTRAL) = .ok .MISTRAL :=
  init_model_empty_cache_default.1 .GPT (fun l => l = .MISTRAL)
    (by decide) (by decide) (by decide)

/-- Counterexample to C7 as stated: with a failing constructor and TinyLlama
cached, requesting GPT falls back to the cached TinyLlama, not to the
canonical default Mistral, so the reported active identity differs from the
default. -/
theorem init_model_cached_non_default :
    init_model .GPT [.TINYLLAMA] (fun _ => false) = .ok .TINYLLAMA ∧
    LLM.TINYLLAMA ≠ LLM.MISTRAL := by
  decide

/-- Counterexample to C1 as stated: on the input `"not json at all"` the
parser raises `ValueError("Invalid response format")` to its caller instead
of returning a fallback pair; in particular it does not return
`(unknown, "Unable to help with this at the moment.")`. -/
theorem parse_not_json_raises :
    parse_intent_response "not json at all" =
      .error (.valueError "Invalid response format") ∧
    parse_intent_response "not json at all" ≠
      .ok ("unknown", "Unable to help with this at the moment.") := by
  constructor
  · rfl
  · intro hcontra
    rw [show parse_intent_response "not json at all" =
        .error (.valueError "Invalid response format") from rfl] at hcontra
    exact Except.noConfusion hcontra

/-- Claim C1 (amended): `_parse_intent_response` may raise `ValueError` to
its caller when no usable pair can be extracted; the fixed fallback pair is
produced one level up, by `_handle_error` inside `get_intent_and_response`,
and is the generic error/apology pair — not `(unknown, "Unable to help with this at
the moment.")`, which appears nowhere. -/
theorem parse_failure_becomes_error_pair
    (raw query : String) (e : PyErr)
    (h : parse_intent_response raw = .error e) :
    backend_get_intent_and_response (fun _ => .ok raw) query =
      ("error",
       "I apologize, but I\x27m having trouble processing your request. Please try again.") := by
  have hred : backend_get_intent_and_response (fun _ => .ok raw) query =
      match parse_intent_response raw with
      | .ok p => p
      | .error _ => handle_error_pair := rfl
  rw [hred, h]
  rfl

/-- Witness for C1 (amended) at the input `"not json at all"`. -/
theorem parse_failure_becomes_error_pair_witness :
    backend_get_intent_and_response (fun _ => .ok "not json at all") "hi" =
      ("error",
       "I apologize, but I\x27m having trouble processing your request. Please try again.") :=
  parse_failure_becomes_error_pair "not json at all" "hi"
    (.valueError "Invalid response format") rfl

/-- Counterexample to C2 as stated: for the JSON object embedded in prose on
a single line, no delimiter scanning happens; the whole-string JSON parse
fails, the line fallback sees a single line, and the parser raises
`ValueError("Invalid response format")` instead of returning
`("card_issues", "Please call support.")`. -/
theorem embedded_json_prose_raises :
    parse_intent_response
        "Sure! \x7b\"intent\": \"card_issues\", \"response\": \"Please call support.\"\x7d Thanks." =
      .error (.valueError "Invalid response format") ∧
    parse_intent_response
        "Sure! \x7b\"intent\": \"card_issues\", \"response\": \"Please call support.\"\x7d Thanks." ≠
      .ok ("card_issues", "Please call support.") := by
  constructor
  · rfl
  · intro hcontra
    rw [show parse_intent_response
        "Sure! \x7b\"intent\": \"card_issues\", \"response\": \"Please call support.\"\x7d Thanks." =
        .error (.valueError "Invalid response format") from rfl] at hcontra
    exact Except.noConfusion hcontra

/-- Claim C2 (amended): with a single-line completion that embeds a valid
JSON object in surrounding prose, `get_intent_and_response` returns
the `("error", ...)` pair of `_handle_error` — the `ValueError` raised by the
parser is caught one level up and no JSON is extracted from the prose. -/
theorem embedded_json_prose_error_pair :
    backend_get_intent_and_response
      (fun _ =>
        .ok "Sure! \x7b\"intent\": \"card_issues\", \"response\": \"Please call support.\"\x7d Thanks.")
      "Where is my card?" =
      ("error",
       "I apologize, but I\x27m having trouble processing your request. Please try again.") := by
  rfl

/-- Claim C4 (amended): an input decoding to exactly the JSON object
`{"intent": I, "response": R}` with `I` in the vocabulary and `R` non-empty
after stripping yields exactly `(I, R.strip())` — which is `(I, R)` whenever
`R` carries no leading or trailing whitespace. -/
theorem parse_valid_json_returns_stripped (s I R : String)
    (hjson : json_loads s =
      some (.obj [("intent", .str I), ("response", .str R)]))
    (hI : I ∈ VALID_INTENTS) (hR : pyStrip R ≠ "") :
    parse_intent_response s = .ok (I, pyStrip R) := by
  have h1 : dictGet [("intent", Json.str I), ("response", Json.str R)]
      "intent" (.str "unknown") = .str I := rfl
  have h2 : dictGet [("intent", Json.str I), ("response", Json.str R)]
      "response" (.str "") = .str R := rfl
  have hvI : validate_intent I = I := validate_intent_of_mem I hI
  unfold parse_intent_response
  rw [hjson]
  simp only [h1, h2, hvI]
  rw [if_neg hR]

/-- Witness for C4 (amended) at a vocabulary intent and a pre-stripped
response. -/
theorem parse_valid_json_returns_stripped_witness :
    parse_intent_response
        "\x7b\"intent\": \"card_issues\", \"response\": \"Please call support.\"\x7d" =
      .ok ("card_issues", "Please call support.") := by
  have h := parse_valid_json_returns_stripped
    "\x7b\"intent\": \"card_issues\", \"response\": \"Please call support.\"\x7d"
    "card_issues" "Please call support." rfl (by decide) (by decide)
  exact h

/-- Counterexample to C4 as stated: a non-empty response with surrounding
whitespace is returned stripped, so the result is not exactly `(I, R)`. -/
theorem parse_valid_json_strips_response :
    parse_intent_response "\x7b\"intent\": \"card_issues\", \"response\": \" Hi \"\x7d" =
      .ok ("card_issues", "Hi") ∧
    parse_intent_response "\x7b\"intent\": \"card_issues\", \"response\": \" Hi \"\x7d" ≠
      .ok ("card_issues", " Hi ") := by
  constructor
  · rfl
  · intro hcontra
    rw [show parse_intent_response
        "\x7b\"intent\": \"card_issues\", \"response\": \" Hi \"\x7d" =
        .ok ("card_issues", "Hi") from rfl] at hcontra
    simp at hcontra

/-- Claim C5 (amended): when the decoded `intent` field is a string outside
the vocabulary and the decoded `response` field is non-empty after
stripping, the parser substitutes `general_inquiry` — never the
out-of-vocabulary token itself — and returns the stripped response; when the
response is empty the parse instead falls through to the line fallback and
may raise. -/
theorem parse_oov_intent_general_inquiry (s I R : String)
    (kvs : List (String × Json))
    (hjson : json_loads s = some (.obj kvs))
    (hint : dictGet kvs "intent" (.str "unknown") = .str I)
    (hoov : pyStrip (pyLower I) ∉ VALID_INTENTS)
    (hresp : dictGet kvs "response" (.str "") = .str R)
    (hR : pyStrip R ≠ "") :
    parse_intent_response s = .ok ("general_inquiry", pyStrip R) ∧
    I ≠ "general_inquiry" := by
  have hvI : validate_intent I = "general_inquiry" := by
    unfold validate_intent
    rw [if_neg hoov]
  constructor
  · unfold parse_intent_response
    rw [hjson]
    simp only [hint, hresp, hvI]
    rw [if_neg hR]
  · rintro rfl
    exact hoov (by decide)

/-- Witness for C5 (amended) at an out-of-vocabulary intent token. -/
theorem parse_oov_intent_general_inquiry_witness :
    parse_intent_response "\x7b\"intent\": \"pizza\", \"response\": \"We only do banking.\"\x7d" =
      .ok ("general_inquiry", "We only do banking.") := by
  have h := parse_oov_intent_general_inquiry
    "\x7b\"intent\": \"pizza\", \"response\": \"We only do banking.\"\x7d"
    "pizza" "We only do banking."
    [("intent", .str "pizza"), ("response", .str "We only do banking.")]
    rfl rfl (by decide) rfl (by decide)
  exact h.1

/-- Counterexample to C5 as stated: an out-of-vocabulary intent paired with
an empty response makes the parse raise (the empty response forces the line
fallback, which finds a single line), so "never raises" fails. -/
theorem parse_oov_intent_can_raise :
    parse_intent_response "\x7b\"intent\": \"pizza\", \"response\": \"\"\x7d" =
      .error (.valueError "Invalid response format") := by
  rfl

/-- Claim C6 (amended): for every non-JSON input that still has at least two
lines after stripping, the line fallback validates the first (stripped) line
as the intent token and returns as response exactly everything after that
first line, joined and stripped; that response is never empty, so this
branch always returns. -/
theorem parse_line_fallback_response (raw l0 l1 : String) (rest : List String)
    (hjson : json_loads raw = none)
    (hsplit : pySplitNL (pyStrip raw) = l0 :: l1 :: rest) :
    parse_intent_response raw =
      .ok (validate_intent (pyStrip l0), pyStrip (pyJoinNL (l1 :: rest))) := by
  have hdata : pySplitNL (pyStrip raw) =
      (splitChar '\x0a' (pyStripList raw.data)).map String.mk := rfl
  cases hsc : splitChar '\x0a' (pyStripList raw.data) with
  | nil => exact absurd hsc (splitChar_ne_nil _ _)
  | cons a t0 =>
    cases t0 with
    | nil =>
      rw [hdata, hsc] at hsplit
      simp at hsplit
    | cons b t =>
      rw [hdata, hsc] at hsplit
      simp only [List.map_cons, List.cons.injEq] at hsplit
      obtain ⟨h0, h1, hrest⟩ := hsplit
      have hjdata : (pyJoinNL (l1 :: rest)).data = joinSep '\x0a' (b :: t) := by
        rw [← h1, ← hrest]
        show (joinSep '\x0a' ((String.mk b :: List.map String.mk t).map String.data)) =
          joinSep '\x0a' (b :: t)
        congr 1
        exact map_data_mk (b :: t)
      have hguard : pyStrip (pyJoinNL (l1 :: rest)) ≠ "" := by
        intro hcontra
        have hlist : pyStripList (joinSep '\x0a' (b :: t)) = [] := by
          have := congrArg String.data hcontra
          rw [show (pyStrip (pyJoinNL (l1 :: rest))).data =
              pyStripList ((pyJoinNL (l1 :: rest)).data) from rfl, hjdata] at this
          exact this
        exact stripped_tail_ne_nil raw.data a b t hsc hlist
      have hsplit2 : pySplitNL (pyStrip raw) = l0 :: l1 :: rest := by
        rw [hdata, hsc]
        simp only [List.map_cons, List.cons.injEq]
        exact ⟨h0, h1, hrest⟩
      unfold parse_intent_response
      rw [hjson]
      simp only [hsplit2]
      rw [if_neg hguard]

/-- Witness for C6 (amended) at the two-line example of the spec. -/
theorem parse_line_fallback_response_witness :
    parse_intent_response "ACCOUNT_LOCKED\nYour account is temporarily locked." =
      .ok ("general_inquiry", "Your account is temporarily locked.") := by
  have h := parse_line_fallback_response
    "ACCOUNT_LOCKED\nYour account is temporarily locked."
    "ACCOUNT_LOCKED" "Your account is temporarily locked." [] rfl rfl
  exact h

/-- Counterexample to C6 as stated: `"hello\n "` has two lines, but after
stripping only one remains, so the fallback raises
`ValueError("Invalid response format")` instead of returning the (empty)
text after the first line. -/
theorem parse_two_line_whitespace_raises :
    pySplitNL "hello\n " = ["hello", " "] ∧
    json_loads "hello\n " = none ∧
    parse_intent_response "hello\n " =
      .error (.valueError "Invalid response format") :=
  ⟨rfl, rfl, rfl⟩

end Teller
